import Mathlib

/-!
Verification of the benchmark-and-report pipeline of the
`benchmark-secp256k1-ed25519` repository (bench runner `benchmark.py`,
report generator `illustrate.py`).

The embedding is shallow:
* a CSV file as seen by `pandas.read_csv` is either missing, empty
  (zero parseable bytes, `pandas.errors.EmptyDataError`), or a parsed
  table of column names plus data rows;
* results rows are `(Operation, Time)` pairs with the time as a rational
  (Python floats round-trip exactly through the CSV, so `ℚ` is faithful
  for every claim considered here);
* Python exceptions become `Except`; the two exception classes the
  reporter distinguishes become the constructors of `LoadError`;
* wall-clock reads (`time.time()`) become a clock oracle `Nat → ℚ`
  indexed by the number of reads made so far;
* key generation, which draws fresh randomness on every call, becomes a
  counter supplying one fresh key index per call, and a signature is
  identified by the key that produced it.
-/

namespace BenchSpec

/-- `ITERATIONS = 1000` in `benchmark.py`. -/
def ITERATIONS : Nat := 1000

/-- The two columns `illustrate.load_and_validate_data` requires. -/
def required_columns : List String := ["Operation", "Time (µs/op)"]

/-- The six operation labels `illustrate.load_and_validate_data` requires. -/
def required_operations : List String :=
  ["Ed25519 KeyGen", "Ed25519 Signing", "Ed25519 Verification",
   "secp256k1 KeyGen", "secp256k1 Signing", "secp256k1 Verification"]

/-- The Ed25519 labels, in the order `extract_benchmark_times` looks them up. -/
def ed_operations : List String :=
  ["Ed25519 KeyGen", "Ed25519 Signing", "Ed25519 Verification"]

/-- The secp256k1 labels, in the order `extract_benchmark_times` looks them up. -/
def secp_operations : List String :=
  ["secp256k1 KeyGen", "secp256k1 Signing", "secp256k1 Verification"]

/-- One data row of the results CSV: operation label and time in µs/op. -/
abbrev ResultRow := String × ℚ

/-- One data row of the environment CSV: property name and value. -/
abbrev EnvRow := String × String

/-- A CSV file as `pandas.read_csv` sees it: absent (`FileNotFoundError`),
empty (`pandas.errors.EmptyDataError`), or parsed into column names and
data rows.  A header-only file parses as `table` with no rows. -/
inductive CsvFile (α : Type) where
  | missing : CsvFile α
  | empty : CsvFile α
  | table (columns : List String) (rows : List α) : CsvFile α
deriving DecidableEq

/-- The two exception classes `illustrate.py` raises and catches:
`FileNotFoundError` (missing file) and `ValueError` (malformed input). -/
inductive LoadError where
  | fileNotFound (msg : String)
  | valueError (msg : String)
deriving DecidableEq

/-- A single-quote character, as Python `repr` uses around strings. -/
def pySQ : String := String.singleton (Char.ofNat 39)

/-- Python `repr` of a string (single-quoted), as it appears when a list of
strings is interpolated into an f-string. -/
def pyQuote (s : String) : String := pySQ ++ s ++ pySQ

/-- Python `str`/`repr` of a list of strings, e.g. the text produced by
`f"... {missing_columns}"` in `illustrate.py`. -/
def pyReprStrList (l : List String) : String :=
  "[" ++ String.intercalate ", " (l.map pyQuote) ++ "]"

/-- `illustrate.load_and_validate_data`: read the results CSV, require the
`Operation` and `Time (µs/op)` columns and all six operation labels; a
missing file raises `FileNotFoundError` naming the path, an empty file
raises `ValueError("CSV file is empty")`, missing columns or labels raise
`ValueError` naming what is missing.  On success the parsed table is
returned unchanged. -/
def load_and_validate_data (file : CsvFile ResultRow) (csv_path : String) :
    Except LoadError (List String × List ResultRow) :=
  match file with
  | .missing =>
      .error (.fileNotFound ("Benchmark results file not found: " ++ csv_path))
  | .empty => .error (.valueError "CSV file is empty")
  | .table columns rows =>
      let missing_columns := required_columns.filter (fun c => ¬ c ∈ columns)
      if missing_columns ≠ [] then
        .error (.valueError ("Missing required columns: " ++ pyReprStrList missing_columns))
      else
        let existing_operations := rows.map Prod.fst
        let missing_operations :=
          required_operations.filter (fun op => ¬ op ∈ existing_operations)
        if missing_operations ≠ [] then
          .error (.valueError
            ("Missing required operations: " ++ pyReprStrList missing_operations))
        else
          .ok (columns, rows)

/-- Python `d[k] = v` on a dict: replace in place if the key is present,
append otherwise (insertion order is preserved, last value wins). -/
def dictSet {α : Type} (d : List (String × α)) (k : String) (v : α) :
    List (String × α) :=
  match d with
  | [] => [(k, v)]
  | (k₂, v₂) :: rest =>
      if k₂ = k then (k₂, v) :: rest else (k₂, v₂) :: dictSet rest k v

/-- Python `dict(pairs)`: fold the pairs into an insertion-ordered dict. -/
def pyDict {α : Type} (rows : List (String × α)) : List (String × α) :=
  rows.foldl (fun d kv => dictSet d kv.1 kv.2) []

/-- Python `d.get(k)` / `d[k]` lookup on an insertion-ordered dict. -/
def dictGet {α : Type} : List (String × α) → String → Option α
  | [], _ => none
  | (k₂, v₂) :: rest, k => if k₂ = k then some v₂ else dictGet rest k

/-- `illustrate.load_environment_details`: read the environment CSV into a
dict; on a missing file, an empty file, or a file lacking the `Property`
and `Value` columns, log a warning and return the empty dict instead of
raising (the `ValueError` it raises internally is swallowed by its own
`except Exception` handler). -/
def load_environment_details (file : CsvFile EnvRow) : List EnvRow :=
  match file with
  | .missing => []
  | .empty => []
  | .table columns rows =>
      if "Property" ∈ columns ∧ "Value" ∈ columns then pyDict rows else []

/-- First `Time (µs/op)` value among the rows whose `Operation` equals
`op`, i.e. `df.loc[df["Operation"] == op, "Time (µs/op)"].iloc[0]`. -/
def first_time (rows : List ResultRow) (op : String) : Option ℚ :=
  ((rows.filter (fun r => r.1 = op)).head?).map Prod.snd

/-- `get_times_for_curve` nested in `illustrate.extract_benchmark_times`:
look each label up in order, take the first matching row per label, raise
`ValueError` at the first label with no matching row. -/
def get_times_for_curve (rows : List ResultRow) : List String → Except LoadError (List ℚ)
  | [] => .ok []
  | op :: ops =>
      match rows.filter (fun r => r.1 = op) with
      | [] => .error (.valueError ("No data found for operation: " ++ op))
      | r :: _ =>
          match get_times_for_curve rows ops with
          | .error e => .error e
          | .ok times => .ok (r.2 :: times)

/-- `illustrate.extract_benchmark_times`: the Ed25519 triple then the
secp256k1 triple, each in KeyGen/Signing/Verification order. -/
def extract_benchmark_times (rows : List ResultRow) :
    Except LoadError (List ℚ × List ℚ) :=
  match get_times_for_curve rows ed_operations with
  | .error e => .error e
  | .ok ed_times =>
      match get_times_for_curve rows secp_operations with
      | .error e => .error e
      | .ok secp_times => .ok (ed_times, secp_times)

/-- What `illustrate.create_benchmark_chart` draws, at the data level:
the two bar series and the optional environment text block (present iff
the environment dict is nonempty; plotting aesthetics are out of scope
per the spec). -/
structure Chart where
  edTimes : List ℚ
  secpTimes : List ℚ
  envBlock : Option String
deriving DecidableEq

/-- `illustrate.create_benchmark_chart`: render the two series; if
`env_details` is truthy (nonempty), add the joined `k: v` lines as a text
block below the plot, else add no block. -/
def create_benchmark_chart (ed_times secp_times : List ℚ)
    (env_details : List EnvRow) : Chart :=
  { edTimes := ed_times
    secpTimes := secp_times
    envBlock :=
      if env_details = [] then none
      else some (String.intercalate "\n"
        (env_details.map (fun kv => kv.1 ++ ": " ++ kv.2))) }

/-- `illustrate.main`: load and validate `benchmark_results.csv`, load
`env_info.csv` leniently, extract the two triples, render the chart.
`FileNotFoundError` / `ValueError` (and anything unexpected) are caught
at top level and make `main` return `False` with no chart saved; a full
run returns `True` and the saved chart. -/
def mainRun (results_file : CsvFile ResultRow) (env_file : CsvFile EnvRow) :
    Bool × Option Chart :=
  match load_and_validate_data results_file "benchmark_results.csv" with
  | .error _ => (false, none)
  | .ok df =>
      let env_details := load_environment_details env_file
      match extract_benchmark_times df.2 with
      | .error _ => (false, none)
      | .ok (ed_times, secp_times) =>
          (true, some (create_benchmark_chart ed_times secp_times env_details))

/-- The process exit status of `python illustrate.py`: `exit(1)` when
`main()` returns falsy, normal termination (status 0) otherwise. -/
def exitCode (results_file : CsvFile ResultRow) (env_file : CsvFile EnvRow) : Nat :=
  if (mainRun results_file env_file).1 then 0 else 1

/-! ## `benchmark.py`, dict level

The runner mutates one `results` dict; each timing is
`(end - start) / ITERATIONS * 1e6` where `start` and `end` come from
`time.time()`.  The wall clock is a parameter `clock : Nat → ℚ` giving the
value of the n-th `time.time()` call of the enclosing benchmark function
(each of the three nested helpers reads the clock twice). -/

/-- `(end - start) / ITERATIONS * 1e6`, the average µs/op of a batch. -/
def avg_us (start stop : ℚ) : ℚ := (stop - start) / (ITERATIONS : ℚ) * 1000000

/-- `benchmark.benchmark_ed25519`: run the three nested helpers in order;
each times a batch and stores its average under the scheme label. -/
def benchmark_ed25519 (clock : Nat → ℚ) (results : List (String × ℚ)) :
    List (String × ℚ) :=
  let results := dictSet results "Ed25519 KeyGen" (avg_us (clock 0) (clock 1))
  let results := dictSet results "Ed25519 Signing" (avg_us (clock 2) (clock 3))
  let results := dictSet results "Ed25519 Verification" (avg_us (clock 4) (clock 5))
  results

/-- `benchmark.benchmark_secp256k1`: same shape as the Ed25519 side. -/
def benchmark_secp256k1 (clock : Nat → ℚ) (results : List (String × ℚ)) :
    List (String × ℚ) :=
  let results := dictSet results "secp256k1 KeyGen" (avg_us (clock 0) (clock 1))
  let results := dictSet results "secp256k1 Signing" (avg_us (clock 2) (clock 3))
  let results := dictSet results "secp256k1 Verification" (avg_us (clock 4) (clock 5))
  results

/-- `benchmark.save_csv_benchmark_results`: write the header row
`Operation,Time (µs/op)` then one row per dict entry in iteration order.
The value of this function is the file content as the reporter will parse
it; Python float repr round-trips exactly, so the values are unchanged. -/
def save_csv_benchmark_results (results : List (String × ℚ))
    (filename : String := "benchmark_results.csv") : CsvFile ResultRow :=
  .table ["Operation", "Time (µs/op)"] results

/-! ## `benchmark.py`, key-flow level

For the key-pair reuse claim the dict values are irrelevant; what matters
is which key pairs each phase generates and uses, and whether those calls
fall inside the timed region.  Key generation draws fresh randomness on
every call, modelled by a counter handing out one fresh key index per
call; a signature is identified by the index of the key that signed it,
and `verify` succeeds iff the signing key matches the verifying key. -/

/-- A cryptographic call made by a benchmark phase: generate the key pair
with index `k`, sign with key `k`, or verify with public key `pubk` a
signature made by key `sigk` (`ok` records whether verification
succeeds, i.e. whether the keys match). -/
inductive Ev where
  | gen (k : Nat)
  | sign (k : Nat)
  | verify (pubk : Nat) (sigk : Nat) (ok : Bool)
deriving DecidableEq

/-- One benchmark phase: the calls made before `start = time.time()`
(`pre`) and the calls made inside the timed loop (`timed`). -/
structure Phase where
  pre : List Ev
  timed : List Ev
deriving DecidableEq

/-- `generate_key_ed25519` / `generate_key_secp256k1`: the timed loop
itself generates `ITERATIONS` fresh key pairs; nothing precedes the
timer. -/
def generate_key_phase (ctr : Nat) : Phase × Nat :=
  ({ pre := [], timed := (List.range ITERATIONS).map (fun i => Ev.gen (ctr + i)) },
   ctr + ITERATIONS)

/-- `sign_message_ed25519` / `sign_message_secp256k1`: generate one key
pair before the timer, then sign with it `ITERATIONS` times inside the
timed loop. -/
def sign_message_phase (ctr : Nat) : Phase × Nat :=
  let private_key := ctr
  ({ pre := [Ev.gen private_key],
     timed := List.replicate ITERATIONS (Ev.sign private_key) },
   ctr + 1)

/-- `verify_message_ed25519` / `verify_message_secp256k1`: generate one
fresh key pair and sign the message once with it before the timer, then
verify that signature with the pair's public key `ITERATIONS` times
inside the timed loop. -/
def verify_message_phase (ctr : Nat) : Phase × Nat :=
  let private_key := ctr
  let sig := private_key
  ({ pre := [Ev.gen private_key, Ev.sign private_key],
     timed := List.replicate ITERATIONS
       (Ev.verify private_key sig (decide (sig = private_key))) },
   ctr + 1)

/-- The three phases of one scheme's benchmark function. -/
structure BenchPhases where
  keygen : Phase
  signing : Phase
  verification : Phase
deriving DecidableEq

/-- The key-flow trace of `benchmark_ed25519` (and, identically shaped,
`benchmark_secp256k1`): the three nested helpers run in order, threading
the supply of fresh key pairs. -/
def benchmark_phases (ctr : Nat) : BenchPhases × Nat :=
  let (keygen, ctr) := generate_key_phase ctr
  let (signing, ctr) := sign_message_phase ctr
  let (verification, ctr) := verify_message_phase ctr
  ({ keygen := keygen, signing := signing, verification := verification }, ctr)

/-! ## Concrete data

The example results table of the spec, used as the concrete instance for
several claims. -/

/-- The per-label values of the spec's example scenario. -/
def example_val : String → ℚ := fun op =>
  if op = "Ed25519 KeyGen" then 12.3
  else if op = "Ed25519 Signing" then 8.1
  else if op = "Ed25519 Verification" then 15.4
  else if op = "secp256k1 KeyGen" then 110.2
  else if op = "secp256k1 Signing" then 95.7
  else 140.9

/-- The spec's example results table. -/
def example_rows : List ResultRow :=
  [("Ed25519 KeyGen", 12.3), ("Ed25519 Signing", 8.1), ("Ed25519 Verification", 15.4),
   ("secp256k1 KeyGen", 110.2), ("secp256k1 Signing", 95.7),
   ("secp256k1 Verification", 140.9)]

/-- The example table with the `secp256k1 Verification` row removed. -/
def example_rows_missing : List ResultRow :=
  [("Ed25519 KeyGen", 12.3), ("Ed25519 Signing", 8.1), ("Ed25519 Verification", 15.4),
   ("secp256k1 KeyGen", 110.2), ("secp256k1 Signing", 95.7)]

/-- Whether extraction succeeded (did not raise). -/
def isOkTimes : Except LoadError (List ℚ × List ℚ) → Bool
  | .ok _ => true
  | .error _ => false

/-! ## Lemmas about the lookup loop of `extract_benchmark_times` -/

/-- If every label in `ops` has a first matching row with value `v op`,
the lookup loop returns exactly those values in label order. -/
lemma get_times_for_curve_ok (rows : List ResultRow) (v : String → ℚ) :
    ∀ ops : List String, (∀ op ∈ ops, first_time rows op = some (v op)) →
      get_times_for_curve rows ops = .ok (ops.map v)
  | [], _ => rfl
  | op :: ops, h => by
      have hop := h op (List.mem_cons_self op ops)
      have htail := get_times_for_curve_ok rows v ops
        (fun o ho => h o (List.mem_cons_of_mem op ho))
      rw [get_times_for_curve]
      cases hfil : rows.filter (fun r => r.1 = op) with
      | nil => simp [first_time, hfil] at hop
      | cons r rest =>
          simp only [first_time, hfil, List.head?_cons] at hop
          simp only [htail, List.map_cons]
          simpa using hop

/-- If every label in `ops` occurs in the `Operation` column, the lookup
loop succeeds. -/
lemma get_times_for_curve_isOk (rows : List ResultRow) :
    ∀ ops : List String, (∀ op ∈ ops, op ∈ rows.map Prod.fst) →
      ∃ ts, get_times_for_curve rows ops = .ok ts
  | [], _ => ⟨[], rfl⟩
  | op :: ops, h => by
      obtain ⟨r, hr, hr1⟩ := List.mem_map.1 (h op (List.mem_cons_self op ops))
      have hrf : r ∈ rows.filter (fun r => r.1 = op) :=
        List.mem_filter.2 ⟨hr, by simp [hr1]⟩
      obtain ⟨ts, hts⟩ := get_times_for_curve_isOk rows ops
        (fun o ho => h o (List.mem_cons_of_mem op ho))
      rw [get_times_for_curve]
      cases hfil : rows.filter (fun r => r.1 = op) with
      | nil => rw [hfil] at hrf; cases hrf
      | cons r₂ rest => exact ⟨r₂.2 :: ts, by simp [hts]⟩

/-- Each scheme's label list is contained in the required six. -/
lemma scheme_ops_sub :
    (∀ op ∈ ed_operations, op ∈ required_operations) ∧
    (∀ op ∈ secp_operations, op ∈ required_operations) := by decide

/-! ## Claims -/

/-- Claim C1: for every results table in which each of the six fixed
operation labels has a (first) matching row carrying a positive value,
extraction succeeds and returns the Ed25519 and secp256k1 triples in
KeyGen/Signing/Verification order, with the entries equal to the table's
values for the corresponding labels. -/
theorem extract_on_complete_table (rows : List ResultRow) (v : String → ℚ)
    (hpos : ∀ op ∈ required_operations, 0 < v op)
    (hlook : ∀ op ∈ required_operations, first_time rows op = some (v op)) :
    extract_benchmark_times rows =
      .ok ([v "Ed25519 KeyGen", v "Ed25519 Signing", v "Ed25519 Verification"],
           [v "secp256k1 KeyGen", v "secp256k1 Signing", v "secp256k1 Verification"]) := by
  have h₁ := get_times_for_curve_ok rows v ed_operations
    (fun op hop => hlook op (scheme_ops_sub.1 op hop))
  have h₂ := get_times_for_curve_ok rows v secp_operations
    (fun op hop => hlook op (scheme_ops_sub.2 op hop))
  rw [extract_benchmark_times, h₁, h₂]
  rfl

/-- Witness for C1 at the spec's example table. -/
theorem extract_on_complete_table_witness :
    extract_benchmark_times example_rows =
      .ok ([12.3, 8.1, 15.4], [110.2, 95.7, 140.9]) := by
  have h := extract_on_complete_table example_rows example_val
    (by
      intro op hop
      fin_cases hop <;> simp [example_val] <;> norm_num)
    (by
      intro op hop
      fin_cases hop <;> simp [first_time, example_rows, example_val])
  simpa [example_val] using h

/-- Claim C2 as stated is false on the code: in `benchmark_ed25519` (and
identically in `benchmark_secp256k1`) the signing helper and the
verification helper each generate their own fresh key pair, so the key
signing inside the signing phase's timed loop (index `1000`, starting the
key supply at `0`) differs from the key pair whose public half verifies
inside the verification phase's timed loop (index `1001`). -/
theorem sign_verify_shared_keypair_cex :
    ¬ (∀ (ctr k₁ k₂ s : Nat) (ok : Bool),
        Ev.sign k₁ ∈ ((benchmark_phases ctr).1).signing.timed →
        Ev.verify k₂ s ok ∈ ((benchmark_phases ctr).1).verification.timed →
        k₁ = k₂) := by
  intro h
  have e₁ : ((benchmark_phases 0).1).signing.timed =
      List.replicate 1000 (Ev.sign 1000) := rfl
  have e₂ : ((benchmark_phases 0).1).verification.timed =
      List.replicate 1000 (Ev.verify 1001 1001 true) := rfl
  have h₁ : Ev.sign 1000 ∈ ((benchmark_phases 0).1).signing.timed := by
    rw [e₁]; exact List.mem_replicate.2 ⟨by decide, rfl⟩
  have h₂ : Ev.verify 1001 1001 true ∈ ((benchmark_phases 0).1).verification.timed := by
    rw [e₂]; exact List.mem_replicate.2 ⟨by decide, rfl⟩
  exact absurd (h 0 1000 1001 1001 true h₁ h₂) (by decide)

/-- Claim C2 amended: in each scheme's benchmark, the signing phase and
the verification phase each generate their own key pair outside the
timed loop (the timed loops contain only sign resp. verify calls with
that phase-local key); the two phases use distinct key pairs; and the
signature verified in the verification phase is produced by that phase's
own key pair, so every timed verification succeeds. -/
theorem phase_local_keypairs (ctr : Nat) :
    ((benchmark_phases ctr).1).signing.pre = [Ev.gen (ctr + ITERATIONS)] ∧
    ((benchmark_phases ctr).1).signing.timed =
      List.replicate ITERATIONS (Ev.sign (ctr + ITERATIONS)) ∧
    ((benchmark_phases ctr).1).verification.pre =
      [Ev.gen (ctr + ITERATIONS + 1), Ev.sign (ctr + ITERATIONS + 1)] ∧
    ((benchmark_phases ctr).1).verification.timed =
      List.replicate ITERATIONS
        (Ev.verify (ctr + ITERATIONS + 1) (ctr + ITERATIONS + 1) true) ∧
    ctr + ITERATIONS ≠ ctr + ITERATIONS + 1 := by
  refine ⟨rfl, rfl, rfl, ?_, by omega⟩
  show List.replicate ITERATIONS
      (Ev.verify (ctr + ITERATIONS + 1) (ctr + ITERATIONS + 1)
        (decide (ctr + ITERATIONS + 1 = ctr + ITERATIONS + 1))) = _
  simp

/-- Claim C3: for every results table that has the two required columns
but is missing at least one of the six required operation labels,
`load_and_validate_data` raises `ValueError` whose message lists exactly
the missing labels, and `main` produces no chart. -/
theorem load_missing_operations (columns : List String) (rows : List ResultRow)
    (csv_path : String) (env_file : CsvFile EnvRow)
    (hcols : ∀ c ∈ required_columns, c ∈ columns)
    (hmiss : required_operations.filter (fun op => ¬ op ∈ rows.map Prod.fst) ≠ []) :
    load_and_validate_data (.table columns rows) csv_path =
      .error (.valueError ("Missing required operations: " ++
        pyReprStrList (required_operations.filter (fun op => ¬ op ∈ rows.map Prod.fst)))) ∧
    mainRun (.table columns rows) env_file = (false, none) := by
  have hc : required_columns.filter (fun c => ¬ c ∈ columns) = [] :=
    List.filter_eq_nil_iff.2 (by intro c hcm; simpa using hcols c hcm)
  have key : ∀ cp : String, load_and_validate_data (.table columns rows) cp =
      .error (.valueError ("Missing required operations: " ++
        pyReprStrList (required_operations.filter (fun op => ¬ op ∈ rows.map Prod.fst)))) := by
    intro cp
    simp only [load_and_validate_data, hc]
    rw [if_neg (by simp), if_pos hmiss]
  refine ⟨key csv_path, ?_⟩
  rw [mainRun, key "benchmark_results.csv"]

/-- Witness for C3: the example table without its `secp256k1 Verification`
row. -/
theorem load_missing_operations_witness :
    load_and_validate_data (.table required_columns example_rows_missing)
        "benchmark_results.csv" =
      .error (.valueError ("Missing required operations: " ++
        pyReprStrList ["secp256k1 Verification"])) ∧
    mainRun (.table required_columns example_rows_missing) .missing = (false, none) := by
  have h := load_missing_operations required_columns example_rows_missing
    "benchmark_results.csv" .missing (by decide)
    (by simp [required_operations, example_rows_missing])
  simpa [required_operations, example_rows_missing] using h

/-- Claim C4: for every path with no results file,
`load_and_validate_data` raises `FileNotFoundError` whose message names
the path, `main` catches it and produces no chart, and the process exits
with status 1; a fully successful run (here: the example table, any
environment file) exits with status 0. -/
theorem missing_results_file_exit (csv_path : String) (env_file : CsvFile EnvRow) :
    load_and_validate_data .missing csv_path =
      .error (.fileNotFound ("Benchmark results file not found: " ++ csv_path)) ∧
    csv_path.data <:+: ("Benchmark results file not found: " ++ csv_path).data ∧
    mainRun .missing env_file = (false, none) ∧
    exitCode .missing env_file = 1 ∧
    exitCode (.table required_columns example_rows) env_file = 0 := by
  refine ⟨rfl, ⟨"Benchmark results file not found: ".data, [], by simp⟩, rfl, rfl, rfl⟩

/-- Claim C5: an empty results file (zero bytes, i.e.
`pandas.errors.EmptyDataError`) raises `ValueError("CSV file is empty")`,
and a header-only file (the required columns, no data rows) raises
`ValueError` listing all six operations as missing — both malformed-input
conditions, not missing-file conditions — and the process exits with
status 1 in both cases. -/
theorem empty_results_file_exit (csv_path : String) (env_file : CsvFile EnvRow) :
    load_and_validate_data .empty csv_path = .error (.valueError "CSV file is empty") ∧
    load_and_validate_data (.table required_columns ([] : List ResultRow)) csv_path =
      .error (.valueError ("Missing required operations: " ++
        pyReprStrList required_operations)) ∧
    exitCode .empty env_file = 1 ∧
    exitCode (.table required_columns ([] : List ResultRow)) env_file = 1 := by
  exact ⟨rfl, rfl, rfl, rfl⟩

/-- Claim C6: with a valid results file, a missing (or malformed)
environment file does not fail the run: `load_environment_details`
returns the empty dict in all three degraded cases, and `main` still
succeeds, saving a chart whose environment annotation block is absent. -/
theorem env_missing_graceful (columns : List String) (rows : List ResultRow)
    (ed_times secp_times : List ℚ)
    (hload : load_and_validate_data (.table columns rows) "benchmark_results.csv" =
      .ok (columns, rows))
    (hex : extract_benchmark_times rows = .ok (ed_times, secp_times)) :
    load_environment_details .missing = [] ∧
    load_environment_details .empty = [] ∧
    (∀ ecols erows, ¬ ("Property" ∈ ecols ∧ "Value" ∈ ecols) →
      load_environment_details (.table ecols erows) = []) ∧
    mainRun (.table columns rows) .missing =
      (true, some { edTimes := ed_times, secpTimes := secp_times, envBlock := none }) := by
  refine ⟨rfl, rfl, ?_, ?_⟩
  · intro ecols erows h
    rw [load_environment_details, if_neg h]
  · rw [mainRun, hload]
    simp [hex, create_benchmark_chart, load_environment_details]

/-- Witness for C6: the example table with the environment file absent. -/
theorem env_missing_graceful_witness :
    mainRun (.table required_columns example_rows) .missing =
      (true, some { edTimes := [12.3, 8.1, 15.4], secpTimes := [110.2, 95.7, 140.9],
                    envBlock := none }) :=
  (env_missing_graceful required_columns example_rows [12.3, 8.1, 15.4]
    [110.2, 95.7, 140.9] rfl rfl).2.2.2

/-- Claim C7: writing any results mapping over the six fixed labels with
`save_csv_benchmark_results` and reading it back with
`load_and_validate_data` returns exactly the written (label, value)
rows (values exact, since Python float repr round-trips). -/
theorem save_load_round_trip (v : String → ℚ) :
    load_and_validate_data
        (save_csv_benchmark_results (required_operations.map (fun op => (op, v op))))
        "benchmark_results.csv" =
      .ok (["Operation", "Time (µs/op)"],
           required_operations.map (fun op => (op, v op))) := rfl

/-- Claim C8: any table accepted by `load_and_validate_data` has all six
labels present, so the `No data found for operation` branch of
`extract_benchmark_times` is unreachable: extraction never raises on a
validated table. -/
theorem validated_extract_never_fails (file : CsvFile ResultRow) (csv_path : String)
    (df : List String × List ResultRow)
    (hload : load_and_validate_data file csv_path = .ok df) :
    isOkTimes (extract_benchmark_times df.2) = true := by
  cases file with
  | missing => simp [load_and_validate_data] at hload
  | empty => simp [load_and_validate_data] at hload
  | table columns rows =>
      simp only [load_and_validate_data] at hload
      split at hload
      · simp at hload
      · split at hload
        · simp at hload
        · next hops =>
            rw [not_ne_iff] at hops
            have hmem : ∀ op ∈ required_operations, op ∈ rows.map Prod.fst := by
              intro op hop
              have := List.filter_eq_nil_iff.1 hops op hop
              simpa using this
            obtain ⟨ed, hed⟩ := get_times_for_curve_isOk rows ed_operations
              (fun op hop => hmem op (scheme_ops_sub.1 op hop))
            obtain ⟨secp, hsecp⟩ := get_times_for_curve_isOk rows secp_operations
              (fun op hop => hmem op (scheme_ops_sub.2 op hop))
            obtain rfl : (columns, rows) = df := by
              simpa using hload
            simp [extract_benchmark_times, hed, hsecp, isOkTimes]

/-- Witness for C8: the validated example table. -/
theorem validated_extract_never_fails_witness :
    isOkTimes (extract_benchmark_times example_rows) = true :=
  validated_extract_never_fails (.table required_columns example_rows)
    "benchmark_results.csv" (required_columns, example_rows) rfl

/-- Claim C9: on a table listing every one of the six labels twice (first
with values `v`, then duplicates with values `w`), extraction silently
returns the first value in file order for every label — the duplicates
are ignored and no error is raised, even though each label has two
matching rows. -/
theorem extract_uses_first_duplicate (v w : String → ℚ) :
    extract_benchmark_times
        (required_operations.map (fun op => (op, v op)) ++
         required_operations.map (fun op => (op, w op))) =
      .ok ([v "Ed25519 KeyGen", v "Ed25519 Signing", v "Ed25519 Verification"],
           [v "secp256k1 KeyGen", v "secp256k1 Signing", v "secp256k1 Verification"]) ∧
    ∀ op ∈ required_operations,
      ((required_operations.map (fun op₂ => (op₂, v op₂)) ++
        required_operations.map (fun op₂ => (op₂, w op₂))).filter
          (fun r => r.1 = op)).length = 2 := by
  refine ⟨rfl, ?_⟩
  intro op hop
  fin_cases hop <;> rfl

/-- Witness for C9: example values with zero-valued duplicates. -/
theorem extract_uses_first_duplicate_witness :
    extract_benchmark_times
        (required_operations.map (fun op => (op, example_val op)) ++
         required_operations.map (fun op => (op, (0 : ℚ)))) =
      .ok ([12.3, 8.1, 15.4], [110.2, 95.7, 140.9]) ∧
    ((required_operations.map (fun op₂ => (op₂, example_val op₂)) ++
      required_operations.map (fun op₂ => (op₂, (0 : ℚ)))).filter
        (fun r => r.1 = "Ed25519 KeyGen")).length = 2 := by
  have h := extract_uses_first_duplicate example_val (fun _ => (0 : ℚ))
  exact ⟨by simpa [example_val] using h.1, h.2 "Ed25519 KeyGen" (by decide)⟩

/-- Overwriting one key of a dict leaves every other key's value
unchanged. -/
lemma dictGet_dictSet_ne {α : Type} (d : List (String × α)) (key k : String) (v : α)
    (h : ¬ k = key) : dictGet (dictSet d key v) k = dictGet d k := by
  induction d with
  | nil => simp [dictSet, dictGet, Ne.symm h]
  | cons kv rest ih =>
      obtain ⟨k₂, v₂⟩ := kv
      rw [dictSet]
      by_cases hk : k₂ = key
      · have hkk : ¬ k₂ = k := fun e => h (e.symm.trans hk)
        rw [if_pos hk]
        simp only [dictGet]
        rw [if_neg hkk, if_neg hkk]
      · rw [if_neg hk]
        simp only [dictGet]
        rw [ih]

/-- Claim C10: each scheme's benchmark function touches only its own
three labels — any entry of the passed-in results dict under a different
label keeps its value — and running both schemes on the initially empty
dict of `main` yields exactly the six fixed labels, in order. -/
theorem benchmark_results_frame (clock₁ clock₂ : Nat → ℚ)
    (results : List (String × ℚ)) (k : String) :
    (¬ k ∈ ed_operations →
      dictGet (benchmark_ed25519 clock₁ results) k = dictGet results k) ∧
    (¬ k ∈ secp_operations →
      dictGet (benchmark_secp256k1 clock₂ results) k = dictGet results k) ∧
    (benchmark_secp256k1 clock₂ (benchmark_ed25519 clock₁ [])).map Prod.fst =
      required_operations := by
  refine ⟨?_, ?_, rfl⟩
  · intro hk
    simp only [ed_operations, List.mem_cons, List.not_mem_nil, or_false] at hk
    push_neg at hk
    obtain ⟨h₁, h₂, h₃⟩ := hk
    show dictGet (dictSet (dictSet (dictSet results "Ed25519 KeyGen"
        (avg_us (clock₁ 0) (clock₁ 1))) "Ed25519 Signing"
        (avg_us (clock₁ 2) (clock₁ 3))) "Ed25519 Verification"
        (avg_us (clock₁ 4) (clock₁ 5))) k = dictGet results k
    rw [dictGet_dictSet_ne _ _ _ _ h₃, dictGet_dictSet_ne _ _ _ _ h₂,
        dictGet_dictSet_ne _ _ _ _ h₁]
  · intro hk
    simp only [secp_operations, List.mem_cons, List.not_mem_nil, or_false] at hk
    push_neg at hk
    obtain ⟨h₁, h₂, h₃⟩ := hk
    show dictGet (dictSet (dictSet (dictSet results "secp256k1 KeyGen"
        (avg_us (clock₂ 0) (clock₂ 1))) "secp256k1 Signing"
        (avg_us (clock₂ 2) (clock₂ 3))) "secp256k1 Verification"
        (avg_us (clock₂ 4) (clock₂ 5))) k = dictGet results k
    rw [dictGet_dictSet_ne _ _ _ _ h₃, dictGet_dictSet_ne _ _ _ _ h₂,
        dictGet_dictSet_ne _ _ _ _ h₁]

/-- Witness for C10: a pre-existing entry under the label `Other`
survives both benchmark functions unchanged. -/
theorem benchmark_results_frame_witness :
    dictGet (benchmark_ed25519 (fun _ => 0) [("Other", 7)]) "Other" = some 7 ∧
    dictGet (benchmark_secp256k1 (fun _ => 0) [("Other", 7)]) "Other" = some 7 := by
  have h := benchmark_results_frame (fun _ => 0) (fun _ => 0) [("Other", 7)] "Other"
  refine ⟨?_, ?_⟩
  · rw [h.1 (by decide)]; rfl
  · rw [h.2.1 (by decide)]; rfl

end BenchSpec
